import Mathlib

/-!
Verification development for a small concurrent network reconnaissance
tool consisting of three Python scripts: a target parser, a TCP connection
prober with service classification, and a thread-pool orchestrator that
aggregates results into a report.  The definitions below are a shallow
embedding of the source functions; side effects (sockets, subprocesses,
the thread pool) are made explicit through environment records and
explicit result collections.  Python string operations are modelled by
structural functions on character lists so that every definition
evaluates inside the kernel.
-/

deriving instance DecidableEq for Except

/-! ## Python string primitives used by the scripts -/

/-- Split a character list at every character satisfying `p`, keeping empty
segments, as Python `split` with an explicit separator does. -/
def splitBy (p : Char → Bool) : List Char → List (List Char)
  | [] => [[]]
  | c :: rest =>
    let r := splitBy p rest
    if p c then [] :: r
    else
      match r with
      | h :: t => (c :: h) :: t
      | [] => [[c]]

/-- Python `line.split(sep)` for a one-character separator. -/
def splitOnChar (sep : Char) (l : List Char) : List (List Char) :=
  splitBy (fun c => c = sep) l

/-- Python `str.strip()`: drop whitespace from both ends. -/
def pyStrip (l : List Char) : List Char :=
  ((l.dropWhile Char.isWhitespace).reverse.dropWhile Char.isWhitespace).reverse

/-- Python `str.split()` with no argument (and `re.split` on whitespace runs
applied to a stripped line): whitespace separated words, empties dropped. -/
def pyWords (l : List Char) : List (List Char) :=
  (splitBy Char.isWhitespace l).filter (fun w => w ≠ [])

/-- Python `str.isdigit`: nonempty and every character a decimal digit. -/
def isPyDigit (l : List Char) : Bool :=
  !l.isEmpty && l.all Char.isDigit

/-- Decimal value of a digit token, as the Python `int` builtin computes it
for a string that passed `isdigit`. -/
def strToNat (l : List Char) : Nat :=
  l.foldl (fun a c => a * 10 + (c.toNat - 48)) 0

/-- Number of colons in a line, Python `line.count(":")`. -/
def countColon (l : List Char) : Nat :=
  (l.filter (fun c => c = ':')).length

/-- Python `"x".join(parts)` for a one-character joiner. -/
def joinChar (sep : Char) (parts : List (List Char)) : List Char :=
  List.intercalate [sep] parts

/-- Python `int(s)` on an arbitrary string: strip whitespace, accept an
optional sign followed by digits, otherwise raise, modelled as `none`. -/
def pyInt? (s : List Char) : Option Int :=
  let t := pyStrip s
  match t with
  | '-' :: ds => if isPyDigit ds then some (-(strToNat ds : Int)) else none
  | '+' :: ds => if isPyDigit ds then some ((strToNat ds : Int)) else none
  | ds => if isPyDigit ds then some ((strToNat ds : Int)) else none

example : pyInt? " 443 ".toList = some 443 := by decide
example : pyInt? "abc".toList = none := by decide
example : pyInt? "-7".toList = some (-7) := by decide
example : pyInt? "".toList = none := by decide

/-! ## Target parser (port-recon.py, parse_input_file) -/

/-- One parsed (host, port) pair; the port is the raw decimal value of the
accepted digit token, exactly as `int(port)` produces it. -/
structure Target where
  host : String
  port : Nat
deriving DecidableEq

/-- The comma branch of `parse_input_file`: split on commas, strip the
parts, drop empties, and accept when the second part is a digit token. -/
def parseComma (line : List Char) : Option Target :=
  if line.contains ',' then
    match ((splitOnChar ',' line).map pyStrip).filter (fun p => p ≠ []) with
    | p0 :: p1 :: _ =>
      if isPyDigit p1 then some ⟨String.mk p0, strToNat p1⟩ else none
    | _ => none
  else none

/-- The whitespace branch of `parse_input_file`: split the line into
words and accept when the second word is a digit token. -/
def parseWs (line : List Char) : Option Target :=
  match pyWords line with
  | p0 :: p1 :: _ =>
    if isPyDigit p1 then some ⟨String.mk p0, strToNat p1⟩ else none
  | _ => none

/-- Fallback branches of `parse_input_file` for one line: the comma branch
(`host,port`) and then the whitespace branch (`host port`).  Returns the
parsed target, or `none` when the line is skipped. -/
def parseRest (line : List Char) : Option Target :=
  (parseComma line).orElse (fun _ => parseWs line)

/-- One stripped, non-comment line of `parse_input_file`.  The colon branch
fires when the line has exactly one colon: it takes the first whitespace
word, drops a trailing `/service` suffix, and splits at the last colon.
Python unpacking `host, port = token.rsplit(":", 1)` raises `ValueError`
when the token contains no colon; the uncaught exception is modelled as
`.error`.  A line that no branch accepts is skipped (`.ok none`). -/
def parseLine (line : List Char) : Except Unit (Option Target) :=
  if countColon line = 1 then
    let token := (splitOnChar '/' ((pyWords line).headD [])).headD []
    let parts := splitOnChar ':' token
    if 2 ≤ parts.length then
      let port := parts.getLastD []
      if isPyDigit port then
        .ok (some ⟨String.mk (pyStrip (joinChar ':' parts.dropLast)), strToNat port⟩)
      else .ok (parseRest line)
    else .error ()
  else .ok (parseRest line)

/-- `parse_input_file` over the raw lines of the input file: strip each
line, skip blanks and `#` comments, accumulate the accepted targets in
input order.  An uncaught `ValueError` from the colon branch aborts the
whole parse. -/
def parseLines : List String → Except Unit (List Target)
  | [] => .ok []
  | raw :: rest =>
    let line := pyStrip raw.toList
    if line = [] || line.headD ' ' = '#' then parseLines rest
    else
      match parseLine line with
      | .error e => .error e
      | .ok none => parseLines rest
      | .ok (some t) => Except.map (fun ts => t :: ts) (parseLines rest)

example : parseLines ["a:1", "b:2"] = .ok [⟨"a", 1⟩, ⟨"b", 2⟩] := by decide
example : parseLines ["h:99999"] = .ok [⟨"h", 99999⟩] := by decide
example : parseLines ["x:8080", "x:8080"] = .ok [⟨"x", 8080⟩, ⟨"x", 8080⟩] := by decide
example : parseLines ["foo bar:80"] = .error () := by decide
example : parseLines ["# c", "", "h,22"] = .ok [⟨"h", 22⟩] := by decide
example : parseLines ["h 25 extra"] = .ok [⟨"h", 25⟩] := by decide
example : parseLines ["h:80/http"] = .ok [⟨"h", 80⟩] := by decide
example : parseLines ["a:b:c"] = .ok [] := by decide
example : parseLines [" host:8080 "] = .ok [⟨"host", 8080⟩] := by decide
example : parseLines [" host :8080"] = .error () := by decide

/-! ## Permissive byte decoding (Python bytes.decode with errors ignored)

The scripts decode received bytes with the `ignore` error handler: every
maximal valid UTF-8 sequence becomes a character, every undecodable byte
is dropped, and decoding never raises. -/

/-- One step of the fuel-indexed UTF-8 decoder; the fuel starts at the
length of the byte list and every step consumes at least one byte. -/
def utf8Aux : Nat → List Nat → List Char
  | 0, _ => []
  | _, [] => []
  | fuel + 1, b :: rest =>
    if b < 0x80 then Char.ofNat b :: utf8Aux fuel rest
    else if 0xC2 ≤ b && b ≤ 0xDF then
      match rest with
      | [] => []
      | c1 :: rest1 =>
        if 0x80 ≤ c1 && c1 ≤ 0xBF then
          Char.ofNat ((b - 0xC0) * 0x40 + (c1 - 0x80)) :: utf8Aux fuel rest1
        else utf8Aux fuel rest
    else if 0xE0 ≤ b && b ≤ 0xEF then
      match rest with
      | [] => []
      | c1 :: rest1 =>
        if (if b = 0xE0 then 0xA0 else 0x80) ≤ c1 &&
            c1 ≤ (if b = 0xED then 0x9F else 0xBF) then
          match rest1 with
          | [] => []
          | c2 :: rest2 =>
            if 0x80 ≤ c2 && c2 ≤ 0xBF then
              Char.ofNat ((b - 0xE0) * 0x1000 + (c1 - 0x80) * 0x40 + (c2 - 0x80)) ::
                utf8Aux fuel rest2
            else utf8Aux fuel rest1
        else utf8Aux fuel rest
    else if 0xF0 ≤ b && b ≤ 0xF4 then
      match rest with
      | [] => []
      | c1 :: rest1 =>
        if (if b = 0xF0 then 0x90 else 0x80) ≤ c1 &&
            c1 ≤ (if b = 0xF4 then 0x8F else 0xBF) then
          match rest1 with
          | [] => []
          | c2 :: rest2 =>
            if 0x80 ≤ c2 && c2 ≤ 0xBF then
              match rest2 with
              | [] => []
              | c3 :: rest3 =>
                if 0x80 ≤ c3 && c3 ≤ 0xBF then
                  Char.ofNat ((b - 0xF0) * 0x40000 + (c1 - 0x80) * 0x1000 +
                      (c2 - 0x80) * 0x40 + (c3 - 0x80)) :: utf8Aux fuel rest3
                else utf8Aux fuel rest2
            else utf8Aux fuel rest1
        else utf8Aux fuel rest
    else utf8Aux fuel rest

/-- Python `data.decode(errors="ignore")` on a byte string. -/
def utf8DecodeIgnore (bs : List Nat) : List Char :=
  utf8Aux bs.length bs

example : utf8DecodeIgnore [104, 105] = ['h', 'i'] := by decide
example : utf8DecodeIgnore [0xFF, 65, 0xC3, 0xA9] = ['A', 'é'] := by decide
example : utf8DecodeIgnore [0xE2, 0x82, 0xAC] = ['€'] := by decide
example : utf8DecodeIgnore [0xE2, 0x82] = [] := by decide

/-! ## Banner grabbing (port-recon.py, grab_banner) -/

/-- A socket read of at most `n` buffered bytes: `sock.recv(n)` against a
peer that has `buf` queued delivers the first `min n (buf.length)` bytes. -/
def pyRecv (n : Nat) (buf : List Nat) : List Nat :=
  buf.take n

/-- The bytes `grab_banner` consumes from the socket: `sock.recv(2048)`. -/
def grabBannerRecv (buf : List Nat) : List Nat :=
  pyRecv 2048 buf

/-- `grab_banner(sock)`: read up to 2048 bytes, decode ignoring errors,
strip, and keep the first 200 characters; any socket failure (modelled as
`.error`) is swallowed and yields the empty banner.  The preliminary
`sock.sendall(b"\r\n")` has its own inner exception guard and does not
affect the returned text. -/
def grab_banner (recvResult : Except String (List Nat)) : String :=
  match recvResult with
  | .error _ => ""
  | .ok buf => String.mk ((pyStrip (utf8DecodeIgnore (grabBannerRecv buf))).take 200)

example : grab_banner (.ok [104, 105, 10]) = "hi" := by decide
example : grab_banner (.error "timed out") = "" := by decide

/-! ## Service classification (enum_from_list.py, test_port) -/

/-- Outcomes of the network and subprocess effects that `test_port`
performs, one field per side-effecting call.  An `.error` value carries
the text of the exception the call raised. -/
structure NetEnv where
  /-- `socket.create_connection((host, port), timeout=TIMEOUT)`. -/
  connect : String → Int → Except String Unit
  /-- `requests.get(f"http-url", timeout=TIMEOUT)`; the error side carries
  `type(e).__name__`, the success side status code, reason and final URL. -/
  httpGet : String → Int → Except String (Nat × String × String)
  /-- TLS handshake and certificate read on the open socket; the success
  side carries the certificate subject, the error side `str(e)`. -/
  tlsHandshake : String → Int → Except String String
  /-- `sock.recv(1024)` on the raw socket: buffered bytes, or a raised
  timeout or connection error. -/
  recvBytes : String → Int → Except String (List Nat)

/-- The HTTP port list of `test_port` (line 21 of enum_from_list.py). -/
def enumHttpPorts : List Int := [80, 8000, 8008, 8080, 8888]

/-- One result tuple `(host, port, status, info, extra)` of `test_port`. -/
structure EnumResult where
  host : String
  port : Int
  status : String
  info : String
  extra : String
deriving DecidableEq

/-- The banner preview built in the default branch of `test_port`:
`sock.recv(1024).decode(errors="ignore").strip()` truncated to 60
characters. -/
def enumBannerPreview (bs : List Nat) : String :=
  String.mk ((pyStrip (utf8DecodeIgnore (pyRecv 1024 bs))).take 60)

/-- Body of `test_port` after `port = int(port)` succeeded.  The outer
`try` turns a failed `create_connection` into a CLOSED result; on the
HTTP ports a `requests.get` failure stays OPEN with the exception name;
on port 443 a TLS handshake failure propagates to the same outer `except`
and is reported CLOSED; on any other port a failed `recv` stays OPEN with
`No banner`. -/
def testPortBody (env : NetEnv) (host : String) (port : Int) : EnumResult :=
  match env.connect host port with
  | .error e => ⟨host, port, "CLOSED", e, ""⟩
  | .ok _ =>
    if port ∈ enumHttpPorts then
      match env.httpGet host port with
      | .ok (code, reason, url) =>
        ⟨host, port, "OPEN", "HTTP " ++ toString code ++ " " ++ reason, url⟩
      | .error ename => ⟨host, port, "OPEN", "HTTP Fail: " ++ ename, ""⟩
    else if port = 443 then
      match env.tlsHandshake host port with
      | .ok subj => ⟨host, port, "OPEN", "HTTPS", subj⟩
      | .error e => ⟨host, port, "CLOSED", e, ""⟩
    else
      match env.recvBytes host port with
      | .ok bs => ⟨host, port, "OPEN", "Banner: " ++ enumBannerPreview bs, ""⟩
      | .error _ => ⟨host, port, "OPEN", "No banner", ""⟩

/-- `test_port(host, port)`: the coercion `port = int(port)` sits before
the `try` block, so a non-integer port string raises an uncaught
`ValueError`, modelled as `.error`. -/
def testPort (env : NetEnv) (host : String) (portStr : String) :
    Except Unit EnumResult :=
  match pyInt? portStr.toList with
  | none => .error ()
  | some p => .ok (testPortBody env host p)

/-- Target extraction in the `main` of enum_from_list.py: keep lines that
are nonempty after stripping and whose raw text does not start with `#`;
for a kept line containing a colon, `host, port = line.split(":")`
unpacks exactly two parts and raises `ValueError` otherwise; lines with
no colon are skipped.  Ports stay unvalidated strings here. -/
def enumParse : List String → Except Unit (List (String × String))
  | [] => .ok []
  | l :: rest =>
    if pyStrip l.toList = [] || l.toList.headD ' ' = '#' then enumParse rest
    else
      let line := pyStrip l.toList
      if line.contains ':' then
        match splitOnChar ':' line with
        | [h, p] =>
          Except.map (fun ts => (String.mk (pyStrip h), String.mk (pyStrip p)) :: ts)
            (enumParse rest)
        | _ => .error ()
      else enumParse rest

/-- The collection loop `for res in executor.map(...)`: results arrive in
submission order; an exception raised inside any task is re-raised when
the iterator reaches it, aborting the loop, so nothing is written. -/
def collectMap (env : NetEnv) : List (String × String) → Except Unit (List EnumResult)
  | [] => .ok []
  | t :: rest =>
    match testPort env t.1 t.2 with
    | .error e => .error e
    | .ok r => Except.map (fun rs => r :: rs) (collectMap env rest)

/-- The whole `main` of enum_from_list.py: parse the input lines, fan the
targets out over the pool, collect the results in submission order; the
returned list is written to the output file one row per result, in list
order.  Any uncaught exception (`.error`) means no output file is
written. -/
def enumMain (inputLines : List String) (env : NetEnv) :
    Except Unit (List EnumResult) :=
  match enumParse inputLines with
  | .error e => .error e
  | .ok targets => collectMap env targets

/-! ## Worker pipeline (port-recon.py, handle_target) -/

/-- The result dictionary one `handle_target` call produces; `isOpen`
models the `"open"` key (Lean reserves the word `open`). -/
structure ResultRecord where
  host : String
  port : Nat
  isOpen : Bool
  banner : String
  nmap : String
  httpx : String
  ffuf : String
  sqlmap : String
  error : String
deriving DecidableEq

/-- `HTTP_PORTS` of port-recon.py (line 36). -/
def HTTP_PORTS : List Nat := [80, 8000, 8008, 8080, 8443, 443]

/-- Python truthiness of the optional `--wordlist` argument: `None` and
the empty string are falsy. -/
def wlTruthy : Option String → Bool
  | none => false
  | some s => !(s == "")

/-- Effects available to `handle_target`: the connect attempt, the bytes
the banner read returns, `which(...)` lookups, and the output paths the
external tool wrappers return (each wrapper swallows its own failures and
returns an empty path then).  `bodyExn` models an unexpected exception
inside the classification `try` block: `some (k, msg)` means the fault
fires after `k` completed steps and carries text `msg`. -/
structure ReconEnv where
  tcpConnect : String → Nat → Bool
  bannerRecv : String → Nat → Except String (List Nat)
  whichHttpx : Bool
  whichNmap : Bool
  whichFfuf : Bool
  runHttpxOut : String → Nat → String
  runNmapOut : String → Nat → String
  runFfufOut : String → Nat → String → String
  sqlmapOut : String → Nat → String → String
  bodyExn : Option (Nat × String)

/-- The five statements of the classification `try` block of
`handle_target`, in source order, each as an update of the result record:
banner grab, httpx on the web ports, nmap, ffuf under `--fuzz`, and
sqlmap on a nonempty httpx result. -/
def classifySteps (env : ReconEnv) (doFuzz : Bool) (wordlist : Option String)
    (doSqlmap : Bool) (host : String) (port : Nat) :
    List (ResultRecord → ResultRecord) :=
  [ fun r => { r with banner := grab_banner (env.bannerRecv host port) },
    fun r =>
      if HTTP_PORTS.contains port && env.whichHttpx then
        { r with httpx := env.runHttpxOut host port }
      else r,
    fun r => if env.whichNmap then { r with nmap := env.runNmapOut host port } else r,
    fun r =>
      if doFuzz && HTTP_PORTS.contains port && wlTruthy wordlist then
        if env.whichFfuf then
          { r with ffuf := env.runFfufOut host port (wordlist.getD "") }
        else { r with ffuf := "" }
      else r,
    fun r =>
      if doSqlmap && !(r.httpx == "") then
        { r with sqlmap := env.sqlmapOut host port r.httpx }
      else r ]

/-- Run a prefix of update steps, as Python executes statements until an
exception interrupts them. -/
def runSteps (steps : List (ResultRecord → ResultRecord)) (r0 : ResultRecord) :
    ResultRecord :=
  steps.foldl (fun r f => f r) r0

/-- `handle_target(host, port, ...)`: a failed connect returns the
all-default record; on success `result["open"] = True` is set before the
classification `try` block, whose statements run until an unexpected
exception (if any) stops them, in which case only the `error` field is
filled in by the `except` clause.  The `finally` clause only releases the
socket. -/
def handle_target (env : ReconEnv) (doFuzz : Bool) (wordlist : Option String)
    (doSqlmap : Bool) (host : String) (port : Nat) : ResultRecord :=
  let base : ResultRecord := ⟨host, port, false, "", "", "", "", "", ""⟩
  if env.tcpConnect host port then
    let r0 := { base with isOpen := true }
    let steps := classifySteps env doFuzz wordlist doSqlmap host port
    match env.bodyExn with
    | none => runSteps steps r0
    | some (k, msg) => { runSteps (steps.take k) r0 with error := msg }
  else base

/-! ## External tool URL construction (port-recon.py, run_httpx and run_ffuf) -/

/-- The scheme `run_httpx` picks: `"https" if port in (443, 8443) else "http"`. -/
def httpxScheme (port : Nat) : String :=
  if port ∈ [443, 8443] then "https" else "http"

/-- The URL `run_httpx` probes. -/
def run_httpx_url (host : String) (port : Nat) : String :=
  httpxScheme port ++ "://" ++ host ++ ":" ++ toString port

/-- The scheme `run_ffuf` picks: `"https" if port in (443, 8443) else "http"`. -/
def ffufScheme (port : Nat) : String :=
  if port ∈ [443, 8443] then "https" else "http"

/-- The fuzzing target `run_ffuf` probes. -/
def run_ffuf_target (host : String) (port : Nat) : String :=
  ffufScheme port ++ "://" ++ host ++ ":" ++ toString port ++ "/FUZZ"

/-! ## Orchestrator (port-recon.py, main) -/

/-- What one future delivers to the collection loop: the worker result,
or the exception `fut.result()` re-raises. -/
inductive TargetOutcome where
  | ok (r : ResultRecord)
  | exn (msg : String)
deriving DecidableEq

/-- The body of the `as_completed` loop for one future: a raised exception
is caught and replaced by an all-default row carrying the exception text
in the `error` field. -/
def collectRow (t : Target) (o : TargetOutcome) : ResultRecord :=
  match o with
  | .ok r => r
  | .exn msg => ⟨t.host, t.port, false, "", "", "", "", "", msg⟩

/-- The `summary` list after the `as_completed` loop: one row per
completed future, in completion order. -/
def summaryRows (completed : List (Target × TargetOutcome)) : List ResultRecord :=
  completed.map (fun p => collectRow p.1 p.2)

/-- What a run of `main` produces. -/
inductive MainResult where
  /-- A message printed before the pool starts; the process returns
  without scanning and without writing any report. -/
  | earlyExit (msg : String)
  /-- The rows of the summary CSV, in the order they are written. -/
  | report (rows : List ResultRecord)
deriving DecidableEq

/-- `main()` of port-recon.py: parse the input file (an uncaught parse
exception aborts the run), exit early when no targets parsed, exit early
when `--fuzz` lacks a wordlist, otherwise run the pool and write the
summary rows to the CSV in the order the futures completed.  The
completion order is passed in as `completed`; a run of the real pool
yields some permutation of the submitted targets there. -/
def portReconMain (inputLines : List String) (doFuzz : Bool)
    (wordlist : Option String) (completed : List (Target × TargetOutcome)) :
    Except Unit MainResult :=
  match parseLines inputLines with
  | .error e => .error e
  | .ok targets =>
    if targets.isEmpty then
      .ok (.earlyExit "No valid host:port entries parsed from the input file.")
    else if doFuzz && !(wlTruthy wordlist) then
      .ok (.earlyExit "--fuzz requires --wordlist to be specified.")
    else .ok (.report (summaryRows completed))

/-! ## Claims about the parser -/

/-- Every target the comma branch accepts carries the decimal value of a
digit token as its port. -/
theorem parseComma_digit (line : List Char) (t : Target)
    (h : parseComma line = some t) :
    ∃ s, isPyDigit s = true ∧ t.port = strToNat s := by
  unfold parseComma at h
  split at h
  · split at h
    · split at h
      · injection h with h2
        subst h2
        exact ⟨_, by assumption, rfl⟩
      · exact Option.noConfusion h
    · exact Option.noConfusion h
  · exact Option.noConfusion h

/-- Every target the whitespace branch accepts carries the decimal value
of a digit token as its port. -/
theorem parseWs_digit (line : List Char) (t : Target)
    (h : parseWs line = some t) :
    ∃ s, isPyDigit s = true ∧ t.port = strToNat s := by
  unfold parseWs at h
  split at h
  · split at h
    · injection h with h2
      subst h2
      exact ⟨_, by assumption, rfl⟩
    · exact Option.noConfusion h
  · exact Option.noConfusion h

/-- Every target any fallback branch accepts carries the decimal value of
a digit token as its port. -/
theorem parseRest_digit (line : List Char) (t : Target)
    (h : parseRest line = some t) :
    ∃ s, isPyDigit s = true ∧ t.port = strToNat s := by
  unfold parseRest at h
  rcases hc : parseComma line with _ | t1
  · rw [hc] at h
    simp only [Option.orElse] at h
    exact parseWs_digit line t h
  · rw [hc] at h
    simp only [Option.orElse] at h
    injection h with h2
    subst h2
    exact parseComma_digit line _ hc

/-- Every target `parseLine` accepts carries the decimal value of a digit
token as its port. -/
theorem parseLine_digit (line : List Char) (t : Target)
    (h : parseLine line = .ok (some t)) :
    ∃ s, isPyDigit s = true ∧ t.port = strToNat s := by
  simp only [parseLine] at h
  split at h
  · split at h
    · split at h
      · injection h with h2
        injection h2 with h3
        subst h3
        exact ⟨_, by assumption, rfl⟩
      · injection h with h2
        exact parseRest_digit line t h2
    · exact Except.noConfusion h
  · injection h with h2
    exact parseRest_digit line t h2

/-- C7 (counterexample): the parser accepts `h:99999` and `h:0`, producing
ports 99999 and 0, so a parsed port need not lie in the range 1 to 65535. -/
theorem parse_accepts_out_of_range_ports :
    parseLines ["h:99999", "h:0"] = .ok [⟨"h", 99999⟩, ⟨"h", 0⟩]
      ∧ ¬(99999 ≤ 65535) ∧ ¬(1 ≤ (0 : Nat)) := by
  refine ⟨by decide, by decide, by decide⟩

/-- C7 (amended): every target the parser emits has as its port the
decimal value of a digit token from its line; the parser checks only
`isdigit`, so the port is an arbitrary nonnegative integer and the range
1 to 65535 is not enforced. -/
theorem parsed_port_is_digit_token_value (lines : List String) (ts : List Target)
    (h : parseLines lines = .ok ts) :
    ∀ t ∈ ts, ∃ s, isPyDigit s = true ∧ t.port = strToNat s := by
  induction lines generalizing ts with
  | nil =>
    simp only [parseLines] at h
    injection h with h2
    subst h2
    intro t ht
    exact absurd ht (List.not_mem_nil t)
  | cons x rest ih =>
    simp only [parseLines] at h
    split at h
    · exact ih ts h
    · split at h
      · exact Except.noConfusion h
      · exact ih ts h
      · rename_i t0 heq
        rcases hr : parseLines rest with e | ts'
        · rw [hr] at h
          exact Except.noConfusion h
        · rw [hr] at h
          simp only [Except.map] at h
          injection h with h2
          subst h2
          intro t ht
          rcases List.mem_cons.mp ht with rfl | ht'
          · exact parseLine_digit _ _ heq
          · exact ih ts' hr t ht'

/-- Witness for C7: instantiating the amended theorem on the concrete
input `h:99999`. -/
theorem parsed_port_is_digit_token_value_witness :
    ∃ s, isPyDigit s = true ∧ (Target.port ⟨"h", 99999⟩) = strToNat s :=
  parsed_port_is_digit_token_value ["h:99999"] [⟨"h", 99999⟩] (by decide)
    ⟨"h", 99999⟩ (by decide)

/-- C2 (counterexample): two identical input lines produce two identical
targets; the parser performs no deduplication, so a normalized
(host, port) pair can occur more than once in its output. -/
theorem parse_keeps_duplicates :
    parseLines ["web:8080", "web:8080"] = .ok [⟨"web", 8080⟩, ⟨"web", 8080⟩]
      ∧ List.count (⟨"web", 8080⟩ : Target)
          [(⟨"web", 8080⟩ : Target), ⟨"web", 8080⟩] = 2 := by
  refine ⟨by decide, by decide⟩

/-- C2 (amended): the parser is a per-line accumulator: the output for a
concatenation of line blocks is the concatenation of the outputs, so
targets appear in input order and every accepted line contributes exactly
one target, duplicates included. -/
theorem parseLines_append (xs ys : List String) :
    parseLines (xs ++ ys) =
      (parseLines xs).bind (fun a => Except.map (fun b => a ++ b) (parseLines ys)) := by
  induction xs with
  | nil =>
    rcases h : parseLines ys with e | ts <;>
      simp [parseLines, h, Except.bind, Except.map]
  | cons x rest ih =>
    simp only [List.cons_append, parseLines]
    split
    · exact ih
    · rcases hl : parseLine (pyStrip x.toList) with e | t
      · rfl
      · rcases t with _ | t0
        · exact ih
        · dsimp only
          rw [List.append_eq, ih]
          rcases hr : parseLines rest with e | ts <;>
            rcases hy : parseLines ys with e2 | ts2 <;>
              simp [Except.bind, Except.map]

/-! ## Claims about result ordering and the orchestrator -/

/-- Worker result used in the ordering counterexample, first target. -/
def rowA : ResultRecord := ⟨"a", 1, true, "", "", "", "", "", ""⟩

/-- Worker result used in the ordering counterexample, second target. -/
def rowB : ResultRecord := ⟨"b", 2, false, "", "", "", "", "", ""⟩

/-- C1 (counterexample): with targets parsed in the order `a:1`, `b:2`
and a legitimate completion order in which `b:2` finishes first, the
persisted report lists `b` before `a`: `main` appends rows in
`as_completed` order and never re-sorts them, so the final report does
not preserve original target order. -/
theorem report_in_completion_order :
    parseLines ["a:1", "b:2"] = .ok [⟨"a", 1⟩, ⟨"b", 2⟩]
      ∧ List.Perm
          (([(⟨"b", 2⟩, TargetOutcome.ok rowB),
             (⟨"a", 1⟩, TargetOutcome.ok rowA)] :
              List (Target × TargetOutcome)).map Prod.fst)
          ([⟨"a", 1⟩, ⟨"b", 2⟩] : List Target)
      ∧ portReconMain ["a:1", "b:2"] false none
          [(⟨"b", 2⟩, TargetOutcome.ok rowB), (⟨"a", 1⟩, TargetOutcome.ok rowA)]
          = .ok (.report [rowB, rowA])
      ∧ [rowB, rowA].map ResultRecord.host = ["b", "a"]
      ∧ ["b", "a"] ≠ ["a", "b"] := by
  refine ⟨by decide, by decide, by decide, by decide, by decide⟩

/-- Both fields of a `test_port` result echo its arguments, whatever the
network outcomes are. -/
theorem testPortBody_host_port (env : NetEnv) (host : String) (p : Int) :
    (testPortBody env host p).host = host ∧ (testPortBody env host p).port = p := by
  refine ⟨?_, ?_⟩ <;> (unfold testPortBody; repeat' split) <;> rfl

/-- A network environment in which every connect, HTTP request, TLS
handshake and read succeeds, used to instantiate theorems. -/
def envAllOk : NetEnv where
  connect := fun _ _ => .ok ()
  httpGet := fun _ _ => .ok (200, "OK", "u")
  tlsHandshake := fun _ _ => .ok "subj"
  recvBytes := fun _ _ => .ok [104, 105]

/-- C1 (amended): enum_from_list collects results through `executor.map`,
which yields them in submission order, so as long as every port string is
a valid integer its result list, and hence its persisted report, lists
the targets in original input order.  (port-recon instead persists rows
in completion order, as the counterexample shows.) -/
theorem enum_report_preserves_target_order (env : NetEnv)
    (targets : List (String × String))
    (h : ∀ t ∈ targets, (pyInt? t.2.toList).isSome = true) :
    ∃ rs, collectMap env targets = .ok rs
      ∧ rs.map EnumResult.host = targets.map Prod.fst
      ∧ rs.length = targets.length := by
  induction targets with
  | nil => exact ⟨[], rfl, rfl, rfl⟩
  | cons t rest ih =>
    obtain ⟨rs, hrs, hmap, hlen⟩ := ih (fun u hu => h u (List.mem_cons_of_mem t hu))
    have ht := h t (List.mem_cons_self t rest)
    rcases hp : pyInt? t.2.toList with _ | p
    · rw [hp] at ht
      simp at ht
    · refine ⟨testPortBody env t.1 p :: rs, ?_, ?_, ?_⟩
      · simp only [collectMap, testPort, hp, hrs, Except.map]
      · simp [hmap, (testPortBody_host_port env t.1 p).1]
      · simp [hlen]

/-- Witness for C1 (amended): a concrete two-target run of the
enum_from_list pipeline in which the result order matches the input
order. -/
theorem enum_report_preserves_target_order_witness :
    ∃ rs, collectMap envAllOk [("h1", "80"), ("h2", "9")] = .ok rs
      ∧ rs.map EnumResult.host = ["h1", "h2"]
      ∧ rs.length = 2 :=
  enum_report_preserves_target_order envAllOk [("h1", "80"), ("h2", "9")]
    (by decide)

/-! ## Claims about classification and the OPEN/CLOSED decision -/

/-- A step list that touches neither the `isOpen` nor the `error` field
leaves both fields of the fold unchanged. -/
theorem runSteps_preserve (L : List (ResultRecord → ResultRecord))
    (hL : ∀ f ∈ L, ∀ r, (f r).isOpen = r.isOpen ∧ (f r).error = r.error)
    (r0 : ResultRecord) :
    (runSteps L r0).isOpen = r0.isOpen ∧ (runSteps L r0).error = r0.error := by
  induction L generalizing r0 with
  | nil => exact ⟨rfl, rfl⟩
  | cons f fs ih =>
    have h2 := ih (fun g hg r => hL g (List.mem_cons_of_mem f hg) r) (f r0)
    have h1 := hL f (List.mem_cons_self f fs) r0
    exact ⟨h2.1.trans h1.1, h2.2.trans h1.2⟩

/-- None of the five classification statements of `handle_target` writes
the `open` or `error` field of the result dictionary. -/
theorem classifySteps_preserve (env : ReconEnv) (doFuzz : Bool)
    (wl : Option String) (doSql : Bool) (host : String) (port : Nat) :
    ∀ f ∈ classifySteps env doFuzz wl doSql host port, ∀ r,
      (f r).isOpen = r.isOpen ∧ (f r).error = r.error := by
  intro f hf r
  simp only [classifySteps, List.mem_cons, List.not_mem_nil, or_false] at hf
  rcases hf with rfl | rfl | rfl | rfl | rfl <;>
    refine ⟨?_, ?_⟩ <;> (dsimp only; repeat' split) <;> rfl

/-- On the HTTP ports an open connection stays OPEN whatever the HTTP
request does. -/
theorem testPortBody_http_open (env : NetEnv) (host : String) (p : Int)
    (hp : p ∈ enumHttpPorts) (hc : env.connect host p = .ok ()) :
    (testPortBody env host p).status = "OPEN" := by
  unfold testPortBody
  simp only [hc, if_pos hp]
  cases env.httpGet host p with
  | error en => rfl
  | ok tr =>
    rcases tr with ⟨c, r, u⟩
    rfl

/-- On the banner ports an open connection stays OPEN whatever the raw
read does. -/
theorem testPortBody_banner_open (env : NetEnv) (host : String) (p : Int)
    (hp : p ∉ enumHttpPorts) (h443 : p ≠ 443) (hc : env.connect host p = .ok ()) :
    (testPortBody env host p).status = "OPEN" := by
  unfold testPortBody
  simp only [hc, if_neg hp, if_neg h443]
  cases env.recvBytes host p with
  | error e => rfl
  | ok bs => rfl

/-- A network environment in which the TCP connect succeeds but the TLS
handshake raises. -/
def envTLSDown : NetEnv where
  connect := fun _ _ => .ok ()
  httpGet := fun _ _ => .error "ConnectionError"
  tlsHandshake := fun _ _ => .error "certificate verify failed"
  recvBytes := fun _ _ => .ok []

/-- C3 (counterexample): the TCP connect to port 443 succeeds, yet a TLS
handshake failure propagates to the outer `except` of `test_port` and the
open port is reported CLOSED, so a classification failure does change the
OPEN/CLOSED determination. -/
theorem tls_failure_reported_closed :
    envTLSDown.connect "h" 443 = .ok ()
      ∧ testPort envTLSDown "h" "443" =
          .ok ⟨"h", 443, "CLOSED", "certificate verify failed", ""⟩ := by
  refine ⟨rfl, by decide⟩

/-- C3 (amended): in port-recon the OPEN/CLOSED decision is made solely
by the connect result: the classification statements and even an
unexpected exception among them only ever fill the `error` field.  In
enum_from_list the same holds on the HTTP ports and on the banner ports,
but not on port 443, where the counterexample applies. -/
theorem classification_never_flips_open (env : ReconEnv) (doFuzz : Bool)
    (wl : Option String) (doSql : Bool) (host : String) (port : Nat)
    (envE : NetEnv) (p : Int) :
    ((handle_target env doFuzz wl doSql host port).isOpen = env.tcpConnect host port)
      ∧ (env.tcpConnect host port = true →
          (handle_target env doFuzz wl doSql host port).error =
            (match env.bodyExn with
             | some km => km.2
             | none => ""))
      ∧ (p ∈ enumHttpPorts → envE.connect host p = .ok () →
          (testPortBody envE host p).status = "OPEN")
      ∧ (p ∉ enumHttpPorts → p ≠ 443 → envE.connect host p = .ok () →
          (testPortBody envE host p).status = "OPEN") := by
  refine ⟨?_, ?_, fun h1 h2 => testPortBody_http_open envE host p h1 h2,
    fun h1 h2 h3 => testPortBody_banner_open envE host p h1 h2 h3⟩
  · unfold handle_target
    cases hconn : env.tcpConnect host port with
    | false => rfl
    | true =>
      cases hb : env.bodyExn with
      | none =>
        exact (runSteps_preserve _
          (classifySteps_preserve env doFuzz wl doSql host port) _).1
      | some km =>
        rcases km with ⟨k, msg⟩
        exact (runSteps_preserve _
          (fun g hg r => classifySteps_preserve env doFuzz wl doSql host port g
            (List.mem_of_mem_take hg) r) _).1
  · intro hconn
    unfold handle_target
    rw [hconn]
    cases hb : env.bodyExn with
    | none =>
      exact (runSteps_preserve _
        (classifySteps_preserve env doFuzz wl doSql host port) _).2
    | some km =>
      rcases km with ⟨k, msg⟩
      rfl

/-- A worker environment in which the TCP connect succeeds, httpx is on
the PATH, the other tools are absent, and no unexpected exception
fires. -/
def envReconUp : ReconEnv where
  tcpConnect := fun _ _ => true
  bannerRecv := fun _ _ => .ok [104, 105]
  whichHttpx := true
  whichNmap := false
  whichFfuf := false
  runHttpxOut := fun _ _ => "httpx-out"
  runNmapOut := fun _ _ => ""
  runFfufOut := fun _ _ _ => ""
  sqlmapOut := fun _ _ _ => ""
  bodyExn := none

/-- Witness for C3 (amended): on a concrete open non-HTTP port the
record stays OPEN both in port-recon and in enum_from_list. -/
theorem classification_never_flips_open_witness :
    (handle_target envReconUp false none false "h" 22).isOpen = true
      ∧ (testPortBody envAllOk "h" 22).status = "OPEN" :=
  ⟨((classification_never_flips_open envReconUp false none false "h" 22
      envAllOk 22).1).trans
        (show envReconUp.tcpConnect "h" 22 = true from rfl),
    (classification_never_flips_open envReconUp false none false "h" 22
      envAllOk 22).2.2.2 (by decide) (by decide) rfl⟩

/-! ## Claims about the HTTP port sets -/

/-- Modelled from the spec: the well-known HTTP set the specification
names, kept only to compare against the sets the code actually uses. -/
def specHttpSet : List Nat := [80, 8000, 8008, 8080, 8443, 8888]

/-- C6 (counterexample): 8443 is in the claimed HTTP set but
enum_from_list banner-grabs it instead of HTTP-probing it; 443 is
HTTP-probed by port-recon although it is outside the claimed set; and
8888 is in the claimed set but outside port-recon's `HTTP_PORTS`.  So
neither script applies the HTTP probe for exactly the claimed set. -/
theorem http_port_set_mismatch :
    ((8443 : Nat) ∈ specHttpSet ∧ ¬((8443 : Int) ∈ enumHttpPorts))
      ∧ testPort envAllOk "h" "8443" = .ok ⟨"h", 8443, "OPEN", "Banner: hi", ""⟩
      ∧ ((443 : Nat) ∈ HTTP_PORTS ∧ ¬((443 : Nat) ∈ specHttpSet))
      ∧ (handle_target envReconUp false none false "h" 443).httpx = "httpx-out"
      ∧ ((8888 : Nat) ∈ specHttpSet ∧ ¬((8888 : Nat) ∈ HTTP_PORTS)) := by
  refine ⟨by decide, by decide, by decide, by decide, by decide⟩

/-- C6 (amended): the HTTP probe is applied for exactly the sets the code
defines: enum_from_list issues the `requests.get` exactly on
{80, 8000, 8008, 8080, 8888}, and port-recon runs httpx (when on the
PATH) exactly on `HTTP_PORTS` = {80, 8000, 8008, 8080, 8443, 443};
both sets are spelled out below and both differ from the claimed set. -/
theorem http_probe_exactly_on_code_sets (envE : NetEnv) (host : String)
    (p : Int) (hc : envE.connect host p = .ok ()) (env : ReconEnv) (q : Nat)
    (hq : env.tcpConnect host q = true) (hx : env.bodyExn = none) :
    (p ∈ enumHttpPorts →
      testPortBody envE host p =
        (match envE.httpGet host p with
         | .ok (code, reason, url) =>
           ⟨host, p, "OPEN", "HTTP " ++ toString code ++ " " ++ reason, url⟩
         | .error en => ⟨host, p, "OPEN", "HTTP Fail: " ++ en, ""⟩))
      ∧ (p ∉ enumHttpPorts → p ≠ 443 →
          testPortBody envE host p =
            (match envE.recvBytes host p with
             | .ok bs => ⟨host, p, "OPEN", "Banner: " ++ enumBannerPreview bs, ""⟩
             | .error _e => ⟨host, p, "OPEN", "No banner", ""⟩))
      ∧ ((handle_target env false none false host q).httpx =
          (if HTTP_PORTS.contains q && env.whichHttpx then
            env.runHttpxOut host q
          else ""))
      ∧ (∀ m : Int, m ∈ enumHttpPorts ↔
          (m = 80 ∨ m = 8000 ∨ m = 8008 ∨ m = 8080 ∨ m = 8888))
      ∧ (∀ n : Nat, n ∈ HTTP_PORTS ↔
          (n = 80 ∨ n = 8000 ∨ n = 8008 ∨ n = 8080 ∨ n = 8443 ∨ n = 443)) := by
  refine ⟨?_, ?_, ?_, ?_, ?_⟩
  · intro hp
    unfold testPortBody
    simp only [hc, if_pos hp]
  · intro hp h443
    unfold testPortBody
    simp only [hc, if_neg hp, if_neg h443]
  · unfold handle_target
    simp only [hq, hx, if_pos rfl]
    simp only [runSteps, classifySteps, List.foldl]
    simp
    first
    | done
    | ((repeat' split) <;> rfl)
  · intro m
    simp [enumHttpPorts]
  · intro n
    simp [HTTP_PORTS]

/-- Witness for C6 (amended): port 80 gets the HTTP probe in
enum_from_list and port 443 gets httpx in port-recon. -/
theorem http_probe_exactly_on_code_sets_witness :
    testPortBody envAllOk "h" 80 = ⟨"h", 80, "OPEN", "HTTP 200 OK", "u"⟩
      ∧ (handle_target envReconUp false none false "h" 443).httpx
          = "httpx-out" :=
  ⟨((http_probe_exactly_on_code_sets envAllOk "h" 80 rfl envReconUp 443
      rfl rfl).1 (by decide)).trans (by decide),
    ((http_probe_exactly_on_code_sets envAllOk "h" 80 rfl envReconUp 443
      rfl rfl).2.2.1).trans (by decide)⟩

/-! ## Claims about banner reads and truncation -/

/-- The decoder emits at most one character per unit of fuel. -/
theorem utf8Aux_length_le (fuel : Nat) : ∀ bs, (utf8Aux fuel bs).length ≤ fuel := by
  induction fuel with
  | zero =>
    intro bs
    simp [utf8Aux]
  | succ fuel ih =>
    intro bs
    match bs with
    | [] => simp [utf8Aux]
    | b :: rest =>
      simp only [utf8Aux]
      repeat' split
      all_goals
        first
        | exact Nat.le_succ_of_le (ih _)
        | (simp only [List.length_cons]
           exact Nat.succ_le_succ (ih _))
        | simp

/-- Decoding with errors ignored never produces more characters than
there were bytes (and in particular never fails). -/
theorem utf8DecodeIgnore_length_le (bs : List Nat) :
    (utf8DecodeIgnore bs).length ≤ bs.length :=
  utf8Aux_length_le bs.length bs

/-- Decoding a run of ASCII `A` bytes yields the same run of `A`
characters, one per byte while fuel lasts. -/
theorem utf8Aux_replicate_A (fuel : Nat) : ∀ n : Nat,
    utf8Aux fuel (List.replicate n 65) = List.replicate (min fuel n) 'A' := by
  induction fuel with
  | zero =>
    intro n
    simp [utf8Aux]
  | succ fuel ih =>
    intro n
    cases n with
    | zero => simp [utf8Aux]
    | succ n =>
      rw [List.replicate_succ]
      simp only [utf8Aux]
      rw [if_pos (by norm_num), ih n, Nat.succ_min_succ, List.replicate_succ]

/-- Stripping does not change a run of `A` characters. -/
theorem pyStrip_replicate_A (n : Nat) :
    pyStrip (List.replicate n 'A') = List.replicate n 'A' := by
  have h : ∀ m : Nat, List.dropWhile Char.isWhitespace (List.replicate m 'A')
      = List.replicate m 'A' := by
    intro m
    cases m with
    | zero => rfl
    | succ m =>
      rw [List.replicate_succ, List.dropWhile_cons]
      simp [show Char.isWhitespace 'A' = false from by decide]
  unfold pyStrip
  rw [h n, List.reverse_replicate, h n, List.reverse_replicate]

/-- C5 (counterexample): `grab_banner` calls `sock.recv(2048)`, so against
a peer with 5000 buffered bytes it consumes 2048 bytes, not at most
1024. -/
theorem banner_read_is_2048_bytes :
    grabBannerRecv (List.replicate 5000 65) = List.replicate 2048 65
      ∧ ¬((List.replicate 2048 (65 : Nat)).length ≤ 1024) := by
  constructor
  · show List.take 2048 (List.replicate 5000 65) = List.replicate 2048 65
    rw [List.take_replicate, show min 2048 5000 = 2048 from by norm_num]
  · rw [List.length_replicate]
    norm_num

/-- C5 (amended): port-recon reads at most 2048 bytes (exactly 2048 when
the peer has more buffered), decodes them permissively (never more
characters than bytes, never failing), and truncates the preview to at
most 200 characters — exactly 200 for a 5000-byte ASCII banner; a socket
error yields the empty banner.  enum_from_list reads at most 1024 bytes
and truncates its preview to at most 60 characters. -/
theorem banner_bounds (buf : List Nat) (e : String) (bs : List Nat) :
    (grabBannerRecv buf).length = min 2048 buf.length
      ∧ (grab_banner (.ok buf)).length ≤ 200
      ∧ grab_banner (.error e) = ""
      ∧ (utf8DecodeIgnore buf).length ≤ buf.length
      ∧ (grab_banner (.ok (List.replicate 5000 65))).length = 200
      ∧ (enumBannerPreview bs).length ≤ 60
      ∧ (pyRecv 1024 bs).length ≤ 1024 := by
  refine ⟨?_, ?_, rfl, utf8DecodeIgnore_length_le buf, ?_, ?_, ?_⟩
  · simp [grabBannerRecv, pyRecv, List.length_take]
  · show (String.mk _).length ≤ 200
    exact List.length_take_le 200 _
  · have h1 : grabBannerRecv (List.replicate 5000 65) = List.replicate 2048 65 := by
      show List.take 2048 (List.replicate 5000 65) = List.replicate 2048 65
      rw [List.take_replicate, show min 2048 5000 = 2048 from by norm_num]
    have h2 : utf8DecodeIgnore (List.replicate 2048 65) = List.replicate 2048 'A' := by
      unfold utf8DecodeIgnore
      rw [List.length_replicate, utf8Aux_replicate_A, Nat.min_self]
    have h3 : grab_banner (.ok (List.replicate 5000 65))
        = String.mk (List.replicate 200 'A') := by
      unfold grab_banner
      dsimp only
      rw [h1, h2, pyStrip_replicate_A, List.take_replicate,
        show min 200 2048 = 200 from by norm_num]
    rw [h3]
    show (List.replicate 200 'A').length = 200
    rw [List.length_replicate]
  · show (String.mk _).length ≤ 60
    exact List.length_take_le 60 _
  · exact List.length_take_le 1024 bs

/-! ## Claims about fault isolation and run completion -/

/-- C4 (counterexample): in enum_from_list the coercion `int(port)` sits
outside the `try` guard of `test_port`, so the target `h2:abc` raises an
uncaught `ValueError` inside its task; `executor.map` re-raises it during
collection and the whole run aborts with no output file, even though the
first target `h1:80` probes fine on its own.  The fault is therefore not
isolated to its target. -/
theorem enum_fault_not_isolated :
    enumMain ["h1:80", "h2:abc"] envAllOk = .error ()
      ∧ testPort envAllOk "h1" "80" = .ok ⟨"h1", 80, "OPEN", "HTTP 200 OK", "u"⟩ := by
  refine ⟨by decide, by decide⟩

/-- C4 (amended): in port-recon fault isolation holds: the collection
loop wraps every `fut.result()` in its own try, so whenever the
completed futures cover the submitted targets, the report has exactly
one row per target, a future that raised contributes an Error row
carrying the exception text, and every worker result appears unchanged.
In enum_from_list this fails: a fault raised before the guard (a
non-integer port string) aborts the whole run, as the counterexample
shows. -/
theorem worker_fault_isolated (targets : List Target)
    (completed : List (Target × TargetOutcome))
    (hcover : List.Perm (completed.map Prod.fst) targets) :
    (summaryRows completed).length = targets.length
      ∧ (∀ t msg, (t, TargetOutcome.exn msg) ∈ completed →
          (⟨t.host, t.port, false, "", "", "", "", "", msg⟩ : ResultRecord)
            ∈ summaryRows completed)
      ∧ (∀ t r, (t, TargetOutcome.ok r) ∈ completed → r ∈ summaryRows completed) := by
  refine ⟨?_, ?_, ?_⟩
  · rw [summaryRows, List.length_map, ← List.length_map completed Prod.fst,
      hcover.length_eq]
  · intro t msg hmem
    exact List.mem_map.mpr ⟨(t, TargetOutcome.exn msg), hmem, rfl⟩
  · intro t r hmem
    exact List.mem_map.mpr ⟨(t, TargetOutcome.ok r), hmem, rfl⟩

/-- Witness for C4 (amended): a two-target run in which the second
worker raised; the report still has two rows and carries the fault as an
Error row. -/
theorem worker_fault_isolated_witness :
    (summaryRows [(⟨"a", 1⟩, TargetOutcome.ok rowA),
        (⟨"b", 2⟩, TargetOutcome.exn "boom")]).length = 2
      ∧ (⟨"b", 2, false, "", "", "", "", "", "boom"⟩ : ResultRecord)
          ∈ summaryRows [(⟨"a", 1⟩, TargetOutcome.ok rowA),
              (⟨"b", 2⟩, TargetOutcome.exn "boom")]
      ∧ rowA ∈ summaryRows [(⟨"a", 1⟩, TargetOutcome.ok rowA),
          (⟨"b", 2⟩, TargetOutcome.exn "boom")] := by
  have h := worker_fault_isolated [⟨"a", 1⟩, ⟨"b", 2⟩]
    [(⟨"a", 1⟩, TargetOutcome.ok rowA), (⟨"b", 2⟩, TargetOutcome.exn "boom")]
    (by decide)
  exact ⟨h.1, h.2.1 ⟨"b", 2⟩ "boom" (by decide), h.2.2 ⟨"a", 1⟩ rowA (by decide)⟩

/-- C8 (counterexample): with perfectly valid configuration (no `--fuzz`,
so no wordlist is required) but an input file holding only a comment,
`main` exits early with a message and writes no report at all, so the
process does not write a report whenever configuration is valid, and the
early exit is not caused by missing configuration. -/
theorem valid_config_without_report :
    portReconMain ["# only a comment"] false none [] =
      .ok (.earlyExit "No valid host:port entries parsed from the input file.") := by
  decide

/-- C8 (amended): whenever configuration is valid, parsing succeeds and
at least one target parses, `main` runs the pool and writes the summary
report with exactly one row per target, regardless of individual target
failures; it exits early only when the wordlist is missing under
`--fuzz` or when no valid target parses (and a malformed line can abort
parsing before any of this). -/
theorem main_reports_all_targets (lines : List String) (doFuzz : Bool)
    (wl : Option String) (targets : List Target)
    (completed : List (Target × TargetOutcome))
    (hp : parseLines lines = .ok targets) (hne : targets ≠ [])
    (hw : doFuzz = true → wlTruthy wl = true)
    (hcover : List.Perm (completed.map Prod.fst) targets) :
    portReconMain lines doFuzz wl completed = .ok (.report (summaryRows completed))
      ∧ (summaryRows completed).length = targets.length := by
  constructor
  · unfold portReconMain
    rw [hp]
    rcases targets with _ | ⟨t0, ts0⟩
    · exact absurd rfl hne
    · cases hd : doFuzz
      · simp
      · simp [hw hd]
  · rw [summaryRows, List.length_map, ← List.length_map completed Prod.fst,
      hcover.length_eq]

/-- Witness for C8 (amended): a one-target run that produces the
one-row report. -/
theorem main_reports_all_targets_witness :
    portReconMain ["a:1"] false none [(⟨"a", 1⟩, TargetOutcome.ok rowA)]
      = .ok (.report [rowA])
      ∧ (summaryRows [(⟨"a", 1⟩, TargetOutcome.ok rowA)]).length = 1 := by
  have h := main_reports_all_targets ["a:1"] false none [⟨"a", 1⟩]
    [(⟨"a", 1⟩, TargetOutcome.ok rowA)] (by decide) (by decide) (by decide)
    (by decide)
  exact ⟨h.1.trans (by decide), h.2⟩

/-! ## Connection prober (port-recon.py, tcp_connect) -/

/-- The candidate loop of `tcp_connect`: for each resolver-returned
address a fresh socket gets `settimeout(timeout)` and a connect attempt;
the first success returns the address, a failure closes the socket and
moves on.  The third component records, per created socket, the address
tried and the timeout installed on it. -/
def tcpConnectLoop (connectAddr : String → Nat → Bool) (timeout : Nat) :
    List String → Bool × Option String × List (String × Nat)
  | [] => (false, none, [])
  | a :: rest =>
    if connectAddr a timeout then (true, some a, [(a, timeout)])
    else
      let r := tcpConnectLoop connectAddr timeout rest
      (r.1, r.2.1, (a, timeout) :: r.2.2)

/-- `tcp_connect(host, port, timeout)`: `getaddrinfo` either raises (any
resolution failure returns `(False, None)` with no attempt made) or
yields the candidate list handed to the loop. -/
def tcp_connect (resolved : Except String (List String))
    (connectAddr : String → Nat → Bool) (timeout : Nat) :
    Bool × Option String × List (String × Nat) :=
  match resolved with
  | .error _ => (false, none, [])
  | .ok infos => tcpConnectLoop connectAddr timeout infos

example :
    tcp_connect (.ok ["a1", "a2", "a3"]) (fun a _ => a == "a2") 4
      = (true, some "a2", [("a1", 4), ("a2", 4)]) := by decide
example :
    tcp_connect (.ok ["a1", "a2"]) (fun _ _ => false) 4
      = (false, none, [("a1", 4), ("a2", 4)]) := by decide
example : tcp_connect (.error "getaddrinfo failed") (fun _ _ => true) 4
    = (false, none, []) := by decide

/-- C9: `tcp_connect` resolves the host and tries the candidates in
resolver order: the connection it returns is exactly the first candidate
that accepts (`List.find?` over the resolver order), success is reported
iff some candidate accepts, every attempted socket carries the full
per-attempt timeout (never a residual of earlier attempts), and any
resolution failure or a refusal or timeout of every candidate yields the
failure result. -/
theorem tcp_connect_first_success (connectAddr : String → Nat → Bool)
    (timeout : Nat) :
    (∀ e, tcp_connect (.error e) connectAddr timeout = (false, none, []))
      ∧ (∀ infos,
          (tcp_connect (.ok infos) connectAddr timeout).2.1 =
              infos.find? (fun a => connectAddr a timeout)
            ∧ ((tcp_connect (.ok infos) connectAddr timeout).1 = true ↔
                ∃ a ∈ infos, connectAddr a timeout = true)
            ∧ (∀ p ∈ (tcp_connect (.ok infos) connectAddr timeout).2.2,
                p.2 = timeout)) := by
  refine ⟨fun e => rfl, fun infos => ?_⟩
  induction infos with
  | nil =>
    refine ⟨rfl, by simp [tcp_connect, tcpConnectLoop], by simp [tcp_connect, tcpConnectLoop]⟩
  | cons a rest ih =>
    obtain ⟨ih1, ih2, ih3⟩ := ih
    by_cases ha : connectAddr a timeout = true
    · refine ⟨?_, ?_, ?_⟩
      · simp [tcp_connect, tcpConnectLoop, ha, List.find?]
      · simp [tcp_connect, tcpConnectLoop, ha]
      · simp [tcp_connect, tcpConnectLoop, ha]
    · refine ⟨?_, ?_, ?_⟩
      · simpa [tcp_connect, tcpConnectLoop, ha, List.find?] using ih1
      · rw [show (tcp_connect (.ok (a :: rest)) connectAddr timeout).1
            = (tcp_connect (.ok rest) connectAddr timeout).1 from by
              simp [tcp_connect, tcpConnectLoop, ha]]
        rw [ih2]
        constructor
        · rintro ⟨x, hx, hcx⟩
          exact ⟨x, List.mem_cons_of_mem a hx, hcx⟩
        · rintro ⟨x, hx, hcx⟩
          rcases List.mem_cons.mp hx with rfl | hx'
          · exact absurd hcx ha
          · exact ⟨x, hx', hcx⟩
      · intro p hp
        have : (tcp_connect (.ok (a :: rest)) connectAddr timeout).2.2
            = (a, timeout) :: (tcp_connect (.ok rest) connectAddr timeout).2.2 := by
          simp [tcp_connect, tcpConnectLoop, ha]
        rw [this] at hp
        rcases List.mem_cons.mp hp with rfl | hp'
        · rfl
        · exact ih3 p hp'

/-- Witness for C9: a concrete resolution with two candidates where the
second accepts; the loop returns it and both attempts used the full
timeout. -/
theorem tcp_connect_first_success_witness :
    (tcp_connect (.error "gaierror") (fun a _ => a == "a2") 4 = (false, none, []))
      ∧ (tcp_connect (.ok ["a1", "a2"]) (fun a _ => a == "a2") 4).2.1 = some "a2"
      ∧ ("a1", (4 : Nat)).2 = 4 := by
  have h := tcp_connect_first_success (fun a _ => a == "a2") 4
  exact ⟨h.1 "gaierror",
    ((h.2 ["a1", "a2"]).1).trans (by decide),
    (h.2 ["a1", "a2"]).2.2 ("a1", 4) (by decide)⟩

/-! ## Claims about URL scheme selection -/

/-- C10: both gateway wrappers pick the scheme from the port alone:
https exactly for ports 443 and 8443, http for every other port, and the
two wrappers always agree; the probed URLs are built from that scheme. -/
theorem scheme_is_https_iff_443_or_8443 (host : String) (port : Nat) :
    (httpxScheme port = "https" ↔ (port = 443 ∨ port = 8443))
      ∧ (ffufScheme port = "https" ↔ (port = 443 ∨ port = 8443))
      ∧ (httpxScheme port ≠ "https" → httpxScheme port = "http")
      ∧ ffufScheme port = httpxScheme port
      ∧ run_httpx_url host port =
          httpxScheme port ++ "://" ++ host ++ ":" ++ toString port
      ∧ run_ffuf_target host port =
          ffufScheme port ++ "://" ++ host ++ ":" ++ toString port ++ "/FUZZ" := by
  refine ⟨?_, ?_, ?_, ?_, rfl, rfl⟩
  · unfold httpxScheme
    split
    · rename_i hmem
      simp only [List.mem_cons, List.not_mem_nil, or_false] at hmem
      simp [hmem]
    · rename_i hmem
      simp only [List.mem_cons, List.not_mem_nil, or_false] at hmem
      constructor
      · intro hh
        exact absurd hh (by decide)
      · intro hor
        exact absurd hor hmem
  · unfold ffufScheme
    split
    · rename_i hmem
      simp only [List.mem_cons, List.not_mem_nil, or_false] at hmem
      simp [hmem]
    · rename_i hmem
      simp only [List.mem_cons, List.not_mem_nil, or_false] at hmem
      constructor
      · intro hh
        exact absurd hh (by decide)
      · intro hor
        exact absurd hor hmem
  · intro hne
    unfold httpxScheme at hne ⊢
    split
    · rename_i hmem
      rw [if_pos hmem] at hne
      exact absurd rfl hne
    · rfl
  · unfold httpxScheme ffufScheme
    rfl

/-- Witness for C10: concrete evaluations on ports 8443 and 8080. -/
theorem scheme_is_https_iff_443_or_8443_witness :
    httpxScheme 8443 = "https" ∧ httpxScheme 8080 = "http" :=
  ⟨(scheme_is_https_iff_443_or_8443 "h" 8443).1.mpr (Or.inr rfl),
    (scheme_is_https_iff_443_or_8443 "h" 8080).2.2.1 (by decide)⟩
